import Mathlib

/-!
Verification of the waymo2bag converter (`waymo2bag/waymo2bag.py`).

The development shallowly embeds the parts of the converter that the
specification speaks about:

* the range-image → point-cloud core (`convert_range_image_to_point_cloud`):
  mask computation, row-major `tf.where` / `tf.gather_nd` extraction, beam
  inclination resolution and reversal, and the per-pixel pose dispatch for the
  top lidar;
* the per-sensor cloud assembly in `write_point_cloud`: concatenation of the
  two returns, optional `tanh` intensity normalization, and the
  `np.column_stack` step;
* the static-transform snapshot logic of `write_tf_static` / `convert`;
* the front-camera filtering shared by `write_tf_static`, `write_image` and
  `write_camera_info`.

Floating point values are modelled as rationals where the code only compares
and rearranges them, and as reals where `np.tanh` is involved.  External
library primitives (the spherical-to-Cartesian projection and the evenly
interpolated inclinations) are modelled from the specification and are marked
as such in their doc comments.
-/

namespace Waymo2Bag

/-- One range-image pixel: channel 0 = range, channel 1 = intensity,
channel 2 = elongation, channel 3 = no-label-zone flag. -/
structure Pixel where
  range : ℚ
  intensity : ℚ
  elongation : ℚ
  nlz : ℚ
deriving DecidableEq, Repr

/-- A range image is a 2-D grid of pixels (rows = beams, columns = samples). -/
abbrev RangeImage := List (List Pixel)

/-- `range_image_mask = range_image_tensor[..., 0] > 0`, and with
`FILTER_NO_LABEL_ZONE_POINTS` also `range_image_tensor[..., 3] != 1.0`. -/
def pixelValid (filterNLZ : Bool) (p : Pixel) : Bool :=
  decide (0 < p.range) && (if filterNLZ then decide (p.nlz ≠ 1) else true)

/-- The boolean validity mask of a range image. -/
def rangeImageMask (filterNLZ : Bool) (img : RangeImage) : List (List Bool) :=
  img.map (fun row => row.map (pixelValid filterNLZ))

/-- 2-D lookup in a grid represented as a list of rows. -/
def at2 {α : Type} (grid : List (List α)) (r c : ℕ) : Option α :=
  (grid[r]?).bind (fun row => row[c]?)

/-- Indices of the `true` entries of one mask row, with row index `r` and
starting column `c0` (helper for the row-major `tf.where`). -/
def whereTrueRow (r : ℕ) : ℕ → List Bool → List (ℕ × ℕ)
  | _, [] => []
  | c0, b :: rest => (if b then [(r, c0)] else []) ++ whereTrueRow r (c0 + 1) rest

/-- Row-major `tf.where` over a 2-D boolean mask, starting at row `r0`. -/
def whereTrueAux : ℕ → List (List Bool) → List (ℕ × ℕ)
  | _, [] => []
  | r0, row :: rest => whereTrueRow r0 0 row ++ whereTrueAux (r0 + 1) rest

/-- `tf.where` over a 2-D boolean mask: the (row, column) indices of the true
entries, in row-major order. -/
def whereTrue (mask : List (List Bool)) : List (ℕ × ℕ) :=
  whereTrueAux 0 mask

/-- `tf.gather_nd`: look up each listed (row, column) index in a grid. -/
def gatherND {α : Type} (grid : List (List α)) (idxs : List (ℕ × ℕ)) :
    List (Option α) :=
  idxs.map (fun ij => at2 grid ij.1 ij.2)

/-- Number of valid pixels of a range image under the given mask setting. -/
def countValidPixels (filterNLZ : Bool) (img : RangeImage) : ℕ :=
  (img.map (fun row => (row.filter (pixelValid filterNLZ)).length)).sum

/-! Basic lemmas about the mask / where / gather machinery. -/

theorem whereTrueRow_length (r : ℕ) :
    ∀ (c0 : ℕ) (row : List Bool),
      (whereTrueRow r c0 row).length = (row.filter id).length := by
  intro c0 row
  induction row generalizing c0 with
  | nil => rfl
  | cons b rest ih =>
    cases b <;> simp [whereTrueRow, List.filter, ih]

theorem whereTrueAux_length :
    ∀ (r0 : ℕ) (mask : List (List Bool)),
      (whereTrueAux r0 mask).length
        = (mask.map (fun row => (row.filter id).length)).sum := by
  intro r0 mask
  induction mask generalizing r0 with
  | nil => rfl
  | cons row rest ih =>
    simp [whereTrueAux, whereTrueRow_length, ih]

theorem whereTrue_length_mask (filterNLZ : Bool) (img : RangeImage) :
    (whereTrue (rangeImageMask filterNLZ img)).length
      = countValidPixels filterNLZ img := by
  unfold whereTrue countValidPixels rangeImageMask
  rw [whereTrueAux_length]
  congr 1
  rw [List.map_map]
  apply List.map_congr_left
  intro row _
  simp [List.filter_map, Function.comp]

theorem mem_whereTrueRow {r : ℕ} {q : ℕ × ℕ} :
    ∀ {c0 : ℕ} {row : List Bool},
      q ∈ whereTrueRow r c0 row
        ↔ q.1 = r ∧ c0 ≤ q.2 ∧ row[q.2 - c0]? = some true := by
  intro c0 row
  induction row generalizing c0 with
  | nil => simp [whereTrueRow]
  | cons b rest ih =>
    constructor
    · intro hmem
      rcases List.mem_append.mp hmem with h | h
      · cases b with
        | false => simp at h
        | true =>
          simp at h
          subst h
          refine ⟨rfl, le_refl _, ?_⟩
          simp
      · obtain ⟨h1, h2, h3⟩ := ih.mp h
        refine ⟨h1, le_trans (Nat.le_succ c0) h2, ?_⟩
        have hq : q.2 - c0 = (q.2 - (c0 + 1)) + 1 := by omega
        rw [hq]
        simpa using h3
    · rintro ⟨h1, h2, h3⟩
      rcases Nat.eq_or_lt_of_le h2 with heq | hlt
      · have hz : q.2 - c0 = 0 := by omega
        rw [hz] at h3
        simp at h3
        apply List.mem_append.mpr
        left
        cases q
        simp at h1 heq
        subst h1
        subst h3
        simp [heq]
      · apply List.mem_append.mpr
        right
        apply ih.mpr
        refine ⟨h1, by omega, ?_⟩
        have hq : q.2 - c0 = (q.2 - (c0 + 1)) + 1 := by omega
        rw [hq] at h3
        simpa using h3

theorem mem_whereTrueAux {q : ℕ × ℕ} :
    ∀ {r0 : ℕ} {mask : List (List Bool)},
      q ∈ whereTrueAux r0 mask
        ↔ r0 ≤ q.1 ∧ ∃ row, mask[q.1 - r0]? = some row
            ∧ row[q.2]? = some true := by
  intro r0 mask
  induction mask generalizing r0 with
  | nil => simp [whereTrueAux]
  | cons row rest ih =>
    constructor
    · intro hmem
      rcases List.mem_append.mp hmem with h | h
      · obtain ⟨h1, _, h3⟩ := mem_whereTrueRow.mp h
        refine ⟨le_of_eq h1.symm, row, ?_, by simpa using h3⟩
        have hz : q.1 - r0 = 0 := by omega
        rw [hz]; simp
      · obtain ⟨h1, r', h2, h3⟩ := ih.mp h
        refine ⟨le_trans (Nat.le_succ r0) h1, r', ?_, h3⟩
        have hq : q.1 - r0 = (q.1 - (r0 + 1)) + 1 := by omega
        rw [hq]
        simpa using h2
    · rintro ⟨h1, r', h2, h3⟩
      rcases Nat.eq_or_lt_of_le h1 with heq | hlt
      · have hz : q.1 - r0 = 0 := by omega
        rw [hz] at h2
        simp at h2
        subst h2
        apply List.mem_append.mpr
        left
        apply mem_whereTrueRow.mpr
        exact ⟨heq.symm, Nat.zero_le _, by simpa using h3⟩
      · apply List.mem_append.mpr
        right
        apply ih.mpr
        refine ⟨by omega, r', ?_, h3⟩
        have hq : q.1 - r0 = (q.1 - (r0 + 1)) + 1 := by omega
        rw [hq] at h2
        simpa using h2

theorem mem_whereTrue {mask : List (List Bool)} {r c : ℕ} :
    (r, c) ∈ whereTrue mask ↔ at2 mask r c = some true := by
  unfold whereTrue at2
  rw [mem_whereTrueAux]
  constructor
  · rintro ⟨-, row, h2, h3⟩
    simp at h2
    rw [h2]
    simpa using h3
  · intro h
    rcases Option.bind_eq_some.mp h with ⟨row, h1, h2⟩
    exact ⟨Nat.zero_le _, row, by simpa using h1, h2⟩

theorem at2_map {α β : Type} (g : α → β) (grid : List (List α)) (r c : ℕ) :
    at2 (grid.map (fun row => row.map g)) r c = (at2 grid r c).map g := by
  unfold at2
  rw [List.getElem?_map]
  cases h : grid[r]? with
  | none => simp
  | some row => simp [List.getElem?_map]

/-! The geometry engine: pose dispatch and inclination handling of
`convert_range_image_to_point_cloud`. -/

/-- A 3-D point with rational coordinates. -/
abbrev Vec3 := ℚ × ℚ × ℚ

/-- A 4×4 homogeneous transform with rational entries. -/
abbrev Mat4 := Fin 4 → Fin 4 → ℚ

/-- Apply a homogeneous transform to a 3-D point. -/
def applyTransform (m : Mat4) (v : Vec3) : Vec3 :=
  (m 0 0 * v.1 + m 0 1 * v.2.1 + m 0 2 * v.2.2 + m 0 3,
   m 1 0 * v.1 + m 1 1 * v.2.1 + m 1 2 * v.2.2 + m 1 3,
   m 2 0 * v.1 + m 2 1 * v.2.1 + m 2 2 * v.2.2 + m 2 3)

/-- 4×4 matrix product. -/
def matMul (a b : Mat4) : Mat4 :=
  fun i j => a i 0 * b 0 j + a i 1 * b 1 j + a i 2 * b 2 j + a i 3 * b 3 j

/-- Map over a list with the index of each element, starting at index `i0`. -/
def mapIdxFrom {α β : Type} (f : ℕ → α → β) : ℕ → List α → List β
  | _, [] => []
  | i0, x :: xs => f i0 x :: mapIdxFrom f (i0 + 1) xs

theorem mapIdxFrom_getElem? {α β : Type} (f : ℕ → α → β) :
    ∀ (l : List α) (i0 i : ℕ), (mapIdxFrom f i0 l)[i]? = (l[i]?).map (f (i0 + i)) := by
  intro l
  induction l with
  | nil => intro i0 i; simp [mapIdxFrom]
  | cons x xs ih =>
    intro i0 i
    cases i with
    | zero => simp [mapIdxFrom]
    | succ n =>
      simp only [mapIdxFrom, List.getElem?_cons_succ]
      have hidx : i0 + 1 + n = i0 + (n + 1) := by omega
      rw [ih (i0 + 1) n, hidx]

/-- The Cartesian point computed for the pixel `p` at row `r`, column `c`.
Modelled from the spec: `range_image_utils.extract_point_cloud_from_range_image`
is library code, not part of this repository.  Per the spec, the point is
`extrinsic ⨯ spherical_to_cartesian(range, inclination, azimuth)` in the
vehicle frame; with no per-pixel pose the frame-wide pose alone carries it
onward, and with a per-pixel pose grid the grid entry composed with the frame
pose is used instead.  The trigonometric spherical-to-Cartesian projection
(with azimuth derived from the pixel column) is abstracted as the parameter
`s2c`, taking the range, the row's beam inclination and the column. -/
def cartPoint (s2c : ℚ → ℚ → ℕ → Vec3) (extrinsic : Mat4) (incl : List ℚ)
    (pixelPose : Option (ℕ → ℕ → Mat4)) (framePose : Mat4)
    (r c : ℕ) (p : Pixel) : Vec3 :=
  let v := applyTransform extrinsic (s2c p.range ((incl[r]?).getD 0) c)
  match pixelPose with
  | none => applyTransform framePose v
  | some g => applyTransform (matMul framePose (g r c)) v

/-- The grid of Cartesian points for a whole range image (the
`range_image_cartesian` tensor after the squeeze). -/
def extractPointCloudFromRangeImage (s2c : ℚ → ℚ → ℕ → Vec3) (extrinsic : Mat4)
    (incl : List ℚ) (img : RangeImage)
    (pixelPose : Option (ℕ → ℕ → Mat4)) (framePose : Mat4) : List (List Vec3) :=
  mapIdxFrom
    (fun r row => mapIdxFrom (fun c p => cartPoint s2c extrinsic incl pixelPose framePose r c p) 0 row)
    0 img

theorem at2_extract (s2c : ℚ → ℚ → ℕ → Vec3) (extrinsic : Mat4) (incl : List ℚ)
    (img : RangeImage) (pixelPose : Option (ℕ → ℕ → Mat4)) (framePose : Mat4)
    (r c : ℕ) :
    at2 (extractPointCloudFromRangeImage s2c extrinsic incl img pixelPose framePose) r c
      = (at2 img r c).map (cartPoint s2c extrinsic incl pixelPose framePose r c) := by
  unfold at2 extractPointCloudFromRangeImage
  rw [mapIdxFrom_getElem?]
  cases h : img[r]? with
  | none => simp
  | some row => simp [mapIdxFrom_getElem?]

/-- `dataset_pb2.LaserName.TOP` (value 1 in the Waymo proto enum). -/
def LaserNameTOP : ℕ := 1

/-- `pixel_pose_local`: the per-pixel pose grid is passed to the extraction
only when the sensor is the top lidar, else `None`. -/
def pixelPoseArg (name : ℕ) (topPoseGrid : ℕ → ℕ → Mat4) :
    Option (ℕ → ℕ → Mat4) :=
  if name = LaserNameTOP then some topPoseGrid else none

/-- Mask + gather core of `convert_range_image_to_point_cloud` for one
(sensor, return-index) pair: `tf.where` on the validity mask, then
`tf.gather_nd` on the Cartesian grid and on the intensity channel. -/
def convertRangeImageReturn (filterNLZ : Bool) (img : RangeImage)
    (cart : List (List Vec3)) : List (Option Vec3) × List (Option ℚ) :=
  let idxs := whereTrue (rangeImageMask filterNLZ img)
  (gatherND cart idxs,
   gatherND (img.map (fun row => row.map Pixel.intensity)) idxs)

/-- One (sensor, return-index) conversion: build the Cartesian grid with the
pose arguments chosen by sensor name, then extract the masked points and
intensities. -/
def convertSensorReturn (s2c : ℚ → ℚ → ℕ → Vec3) (name : ℕ)
    (topPoseGrid : ℕ → ℕ → Mat4) (framePose extrinsic : Mat4)
    (incl : List ℚ) (filterNLZ : Bool) (img : RangeImage) :
    List (Option Vec3) × List (Option ℚ) :=
  convertRangeImageReturn filterNLZ img
    (extractPointCloudFromRangeImage s2c extrinsic incl img
      (pixelPoseArg name topPoseGrid) framePose)

/-- Evenly interpolated beam inclinations.
Modelled from the spec: `range_image_utils.compute_inclination` is library
code, not part of this repository; per the spec it computes evenly spaced
inclinations between the declared min and max across the image's row count. -/
def computeInclination (mn mx : ℚ) (height : ℕ) : List ℚ :=
  (List.range height).map
    (fun i => mn + ((i : ℚ) + 1 / 2) / (height : ℚ) * (mx - mn))

/-- Beam inclination resolution: use the explicit per-beam list when present,
otherwise interpolate from the min/max bounds; in both cases reverse the
result (`tf.reverse(beam_inclinations, axis=[-1])`). -/
def resolveBeamInclinations (beams : List ℚ) (mn mx : ℚ) (height : ℕ) :
    List ℚ :=
  (if beams.isEmpty then computeInclination mn mx height else beams).reverse

/-! The per-sensor cloud assembler (`write_point_cloud`).  Points and
intensities here are the numpy arrays returned per (sensor, return) pair;
`np.tanh` forces real scalars (hence the noncomputable marker on the
definitions that touch it). -/

/-- A 3-D point with real coordinates. -/
abbrev Vec3R := ℝ × ℝ × ℝ

/-- An (x, y, z, intensity) output row. -/
abbrev Vec4R := ℝ × ℝ × ℝ × ℝ

/-- `intensity = np.tanh(intensity)` when `NORMALIZE_INTENSITY` is set,
otherwise the raw values pass through. -/
noncomputable def normalizeIntensity (normalize : Bool) (raw : List ℝ) :
    List ℝ :=
  if normalize then raw.map Real.tanh else raw

/-- `np.concatenate(entries0 + entries1, axis=0)`: the first-return arrays
followed by the second-return arrays, flattened; `np.concatenate` of an empty
list of arrays raises (the spec's InvalidSensorData condition). -/
def concatReturns {α : Type} (e0 e1 : List (List α)) :
    Except String (List α) :=
  if (e0 ++ e1).isEmpty then Except.error "InvalidSensorData"
  else Except.ok (e0 ++ e1).flatten

/-- `np.column_stack((points, intensity))`: pair up rows; numpy raises on a
length mismatch. -/
def columnStack (pts : List Vec3R) (ints : List ℝ) :
    Except String (List Vec4R) :=
  if pts.length = ints.length then
    Except.ok (List.zipWith (fun p i => (p.1, p.2.1, p.2.2, i)) pts ints)
  else Except.error "ShapeMismatch"

/-- The per-sensor body of `write_point_cloud`: concatenate the two returns
of points and of intensities, optionally normalize the intensities, then
stack the intensity as a fourth column. -/
noncomputable def writePointCloudSensor (pts0 pts1 : List (List Vec3R))
    (ints0 ints1 : List (List ℝ)) (normalize : Bool) :
    Except String (List Vec4R) :=
  match concatReturns pts0 pts1 with
  | Except.error e => Except.error e
  | Except.ok points =>
      match concatReturns ints0 ints1 with
      | Except.error e => Except.error e
      | Except.ok intensity =>
          columnStack points (normalizeIntensity normalize intensity)

/-- The per-(sensor, return) entry lists a frame holds for one selected
sensor (`ret_dict["points_<id>_<ri>"]` etc., `[]` when the sensor produced
no range image). -/
structure SensorEntries where
  pts0 : List (List Vec3R)
  pts1 : List (List Vec3R)
  ints0 : List (List ℝ)
  ints1 : List (List ℝ)

/-- Map a fallible step over a list, stopping at the first error, as the
Python loop stops at the first raised exception. -/
def exceptMapM {α β ε : Type} (f : α → Except ε β) : List α → Except ε (List β)
  | [] => Except.ok []
  | x :: xs =>
      match f x with
      | Except.error e => Except.error e
      | Except.ok y =>
          match exceptMapM f xs with
          | Except.error e => Except.error e
          | Except.ok ys => Except.ok (y :: ys)

/-- One frame's `write_point_cloud` loop over the selected sensors. -/
noncomputable def writePointCloudFrame (normalize : Bool)
    (sensors : List SensorEntries) : Except String (List (List Vec4R)) :=
  exceptMapM
    (fun s => writePointCloudSensor s.pts0 s.pts1 s.ints0 s.ints1 normalize)
    sensors

theorem length_normalizeIntensity (normalize : Bool) (raw : List ℝ) :
    (normalizeIntensity normalize raw).length = raw.length := by
  cases normalize <;> simp [normalizeIntensity]

theorem exceptMapM_error {α β ε : Type} (f : α → Except ε β) :
    ∀ (l : List α) (x : α), x ∈ l → (∃ e, f x = Except.error e) →
      ∃ e, exceptMapM f l = Except.error e := by
  intro l
  induction l with
  | nil => intro x hx; exact absurd hx (List.not_mem_nil x)
  | cons y ys ih =>
    intro x hx ⟨e, he⟩
    rcases List.mem_cons.mp hx with rfl | hmem
    · exact ⟨e, by simp [exceptMapM, he]⟩
    · cases hy : f y with
      | error e' => exact ⟨e', by simp [exceptMapM, hy]⟩
      | ok v =>
        obtain ⟨e'', he''⟩ := ih x hmem ⟨e, he⟩
        exact ⟨e'', by simp [exceptMapM, hy, he'']⟩

/-! The static-transform snapshot (`write_tf_static` together with the
`convert` loop).  `α` stands for the TFMessage type; only equality of
messages matters here. -/

/-- `write_tf_static`: on the first frame of a unit the snapshot is `None`,
the message is written to the bag and the snapshot set; on later frames the
recomputed message is asserted equal to the snapshot, a mismatch raising
(AssertionError, the spec's StaticTransformMismatch).  The returned boolean
records whether a bag write happened. -/
def writeTfStatic {α : Type} [DecidableEq α] (snapshot : Option α) (msg : α) :
    Except String (Option α × Bool) :=
  match snapshot with
  | none => Except.ok (some msg, true)
  | some s =>
      if s = msg then Except.ok (some s, false)
      else Except.error "StaticTransformMismatch"

/-- Fold `write_tf_static` over the frames of one unit, counting bag writes. -/
def runUnitTfStatic {α : Type} [DecidableEq α] (snapshot : Option α) :
    List α → Except String (Option α × ℕ)
  | [] => Except.ok (snapshot, 0)
  | m :: rest =>
      match writeTfStatic snapshot m with
      | Except.error e => Except.error e
      | Except.ok (st, w) =>
          match runUnitTfStatic st rest with
          | Except.error e => Except.error e
          | Except.ok (st2, n) => Except.ok (st2, (if w then 1 else 0) + n)

/-- The `convert` loop over input units: each unit starts from a `None`
snapshot (`self.static_tf_message = None` after each unit), and an exception
in a unit propagates, stopping the loop.  Returns the per-unit bag-write
counts. -/
def convertUnitsTfStatic {α : Type} [DecidableEq α] :
    List (List α) → Except String (List ℕ)
  | [] => Except.ok []
  | u :: rest =>
      match runUnitTfStatic none u with
      | Except.error e => Except.error e
      | Except.ok sn =>
          match convertUnitsTfStatic rest with
          | Except.error e => Except.error e
          | Except.ok ns => Except.ok (sn.2 :: ns)

theorem runUnitTfStatic_const {α : Type} [DecidableEq α] (m : α) :
    ∀ (rest : List α), (∀ x ∈ rest, x = m) →
      runUnitTfStatic (some m) rest = Except.ok (some m, 0) := by
  intro rest
  induction rest with
  | nil => intro _; rfl
  | cons y ys ih =>
    intro hall
    have hy : y = m := hall y (List.mem_cons_self y ys)
    have hys : ∀ x ∈ ys, x = m := fun x hx => hall x (List.mem_cons_of_mem y hx)
    subst hy
    simp [runUnitTfStatic, writeTfStatic, ih hys]

theorem runUnitTfStatic_mismatch {α : Type} [DecidableEq α] (m bad : α)
    (hbad : bad ≠ m) :
    ∀ (pre : List α), (∀ x ∈ pre, x = m) → ∀ (post : List α),
      runUnitTfStatic (some m) (pre ++ bad :: post)
        = Except.error "StaticTransformMismatch" := by
  intro pre
  induction pre with
  | nil =>
    intro _ post
    simp [runUnitTfStatic, writeTfStatic, Ne.symm hbad]
  | cons y ys ih =>
    intro hall post
    have hy : y = m := hall y (List.mem_cons_self y ys)
    have hys : ∀ x ∈ ys, x = m := fun x hx => hall x (List.mem_cons_of_mem y hx)
    subst hy
    simp [runUnitTfStatic, writeTfStatic, ih hys post]

/-! The front-camera filter shared by `write_tf_static`, `write_image` and
`write_camera_info`.  `β` stands for the per-camera payload (calibration or
image bytes); each entry is (lowercased camera name, payload). -/

/-- Keep only the entries whose camera name is "front"
(`if frame_name != 'front': continue`). -/
def frontOnly {β : Type} (entries : List (String × β)) : List (String × β) :=
  entries.filter (fun e => e.1 == "front")

/-- The camera transforms `write_tf_static` appends to the TFMessage. -/
def writeTfStaticCameraTransforms {β : Type} (calibs : List (String × β)) :
    List (String × β) :=
  frontOnly calibs

/-- The image messages `write_image` writes. -/
def writeImages {β : Type} (images : List (String × β)) :
    List (String × β) :=
  frontOnly images

/-- The camera-info messages `write_camera_info` writes. -/
def writeCameraInfos {β : Type} (calibs : List (String × β)) :
    List (String × β) :=
  frontOnly calibs

theorem mem_frontOnly {β : Type} (entries : List (String × β))
    (e : String × β) :
    e ∈ frontOnly entries ↔ e ∈ entries ∧ e.1 = "front" := by
  simp [frontOnly, List.mem_filter]

theorem frontOnly_length_le_one {β : Type} (entries : List (String × β))
    (h : (entries.map Prod.fst).Nodup) : (frontOnly entries).length ≤ 1 := by
  have hsub : List.Sublist ((frontOnly entries).map Prod.fst)
      (entries.map Prod.fst) :=
    List.Sublist.map Prod.fst (List.filter_sublist entries)
  have hnd : ((frontOnly entries).map Prod.fst).Nodup := h.sublist hsub
  have hall : ∀ x ∈ (frontOnly entries).map Prod.fst, x = "front" := by
    intro x hx
    rcases List.mem_map.mp hx with ⟨e, he, rfl⟩
    exact ((mem_frontOnly entries e).mp he).2
  rcases hfe : (frontOnly entries).map Prod.fst with _ | ⟨a, tl⟩
  · have h0 : (frontOnly entries).length = 0 := by
      simpa using congrArg List.length hfe
    omega
  · cases tl with
    | nil =>
      have h1 : (frontOnly entries).length = 1 := by
        simpa using congrArg List.length hfe
      omega
    | cons b tl2 =>
      exfalso
      rw [hfe] at hnd hall
      have ha : a = "front" := hall a (by simp)
      have hb : b = "front" := hall b (by simp)
      rw [List.nodup_cons] at hnd
      exact hnd.1 (by simp [ha, hb])

/-! Claim theorems. -/

/-- Claim C1: for every (sensor, return-index) range image, the number of
output points equals the number of valid (masked) pixels, the intensity list
has the same length, and for every index `k`, `points[k]` and `intensity[k]`
are gathered from the same source pixel in the same iteration order over the
mask. -/
theorem claim_C1_mask_count_and_order (s2c : ℚ → ℚ → ℕ → Vec3) (name : ℕ)
    (topPoseGrid : ℕ → ℕ → Mat4) (framePose extrinsic : Mat4) (incl : List ℚ)
    (filterNLZ : Bool) (img : RangeImage) :
    (convertSensorReturn s2c name topPoseGrid framePose extrinsic incl
        filterNLZ img).1.length = countValidPixels filterNLZ img ∧
    (convertSensorReturn s2c name topPoseGrid framePose extrinsic incl
        filterNLZ img).2.length
      = (convertSensorReturn s2c name topPoseGrid framePose extrinsic incl
        filterNLZ img).1.length ∧
    ∀ k, k < (convertSensorReturn s2c name topPoseGrid framePose extrinsic incl
        filterNLZ img).1.length → ∃ r c,
      (whereTrue (rangeImageMask filterNLZ img))[k]? = some (r, c) ∧
      (convertSensorReturn s2c name topPoseGrid framePose extrinsic incl
        filterNLZ img).1[k]?
        = some (at2 (extractPointCloudFromRangeImage s2c extrinsic incl img
            (pixelPoseArg name topPoseGrid) framePose) r c) ∧
      (convertSensorReturn s2c name topPoseGrid framePose extrinsic incl
        filterNLZ img).2[k]?
        = some ((at2 img r c).map Pixel.intensity) ∧
      ∃ p, at2 img r c = some p ∧ pixelValid filterNLZ p = true := by
  simp only [convertSensorReturn, convertRangeImageReturn]
  refine ⟨?_, ?_, ?_⟩
  · simp [gatherND, whereTrue_length_mask]
  · simp [gatherND]
  · intro k hk
    simp only [gatherND, List.length_map] at hk
    set idxs := whereTrue (rangeImageMask filterNLZ img) with hidxs
    obtain ⟨q, hq⟩ : ∃ q, idxs[k]? = some q := ⟨idxs[k], List.getElem?_eq_getElem hk⟩
    refine ⟨q.1, q.2, ?_, ?_, ?_, ?_⟩
    · rw [hq]
    · simp [gatherND, List.getElem?_map, hq]
    · simp [gatherND, List.getElem?_map, hq, at2_map]
    · have hmem : q ∈ idxs := List.getElem?_mem hq
      have hq2 : (q.1, q.2) ∈ idxs := by
        cases q; exact hmem
      have hmask : at2 (rangeImageMask filterNLZ img) q.1 q.2 = some true :=
        mem_whereTrue.mp hq2
      rw [rangeImageMask, at2_map] at hmask
      rcases Option.map_eq_some'.mp hmask with ⟨p, hp, hv⟩
      exact ⟨p, hp, hv⟩

/-- Claim C1 witness: a 1×2 image with one valid pixel (range 5, intensity 7)
and one invalid pixel (range 0). -/
theorem claim_C1_witness :
    (convertSensorReturn (fun rg inc c => (rg, inc, (c : ℚ))) 2
        (fun _ _ => (fun _ _ => 0)) (fun _ _ => 0) (fun _ _ => 0) []
        false [[⟨5, 7, 0, 0⟩, ⟨0, 1, 0, 0⟩]]).1.length
      = countValidPixels false [[⟨5, 7, 0, 0⟩, ⟨0, 1, 0, 0⟩]] ∧
    (0 : ℕ) < (convertSensorReturn (fun rg inc c => (rg, inc, (c : ℚ))) 2
        (fun _ _ => (fun _ _ => 0)) (fun _ _ => 0) (fun _ _ => 0) []
        false [[⟨5, 7, 0, 0⟩, ⟨0, 1, 0, 0⟩]]).1.length ∧
    ∃ r c,
      (whereTrue (rangeImageMask false [[⟨5, 7, 0, 0⟩, ⟨0, 1, 0, 0⟩]]))[0]?
        = some (r, c) ∧
      (convertSensorReturn (fun rg inc c => (rg, inc, (c : ℚ))) 2
        (fun _ _ => (fun _ _ => 0)) (fun _ _ => 0) (fun _ _ => 0) []
        false [[⟨5, 7, 0, 0⟩, ⟨0, 1, 0, 0⟩]]).1[0]?
        = some (at2 (extractPointCloudFromRangeImage
            (fun rg inc c => (rg, inc, (c : ℚ))) (fun _ _ => 0) []
            [[⟨5, 7, 0, 0⟩, ⟨0, 1, 0, 0⟩]]
            (pixelPoseArg 2 (fun _ _ => (fun _ _ => 0))) (fun _ _ => 0)) r c) ∧
      (convertSensorReturn (fun rg inc c => (rg, inc, (c : ℚ))) 2
        (fun _ _ => (fun _ _ => 0)) (fun _ _ => 0) (fun _ _ => 0) []
        false [[⟨5, 7, 0, 0⟩, ⟨0, 1, 0, 0⟩]]).2[0]?
        = some ((at2 [[⟨5, 7, 0, 0⟩, ⟨0, 1, 0, 0⟩]] r c).map Pixel.intensity) ∧
      ∃ p, at2 [[⟨5, 7, 0, 0⟩, ⟨0, 1, 0, 0⟩]] r c = some p
        ∧ pixelValid false p = true := by
  refine ⟨(claim_C1_mask_count_and_order _ 2 _ _ _ [] false _).1, by decide, ?_⟩
  exact (claim_C1_mask_count_and_order (fun rg inc c => (rg, inc, (c : ℚ))) 2
    (fun _ _ => (fun _ _ => 0)) (fun _ _ => 0) (fun _ _ => 0) []
    false [[⟨5, 7, 0, 0⟩, ⟨0, 1, 0, 0⟩]]).2.2 0 (by decide)

/-- Claim C2: an explicit beam inclination list `[a0, ..., an]` is used
reversed (`[an, ..., a0]`) over image rows `0..n`, and the evenly
interpolated inclinations computed from min/max bounds are likewise reversed
before use. -/
theorem claim_C2_inclination_reversal (beams : List ℚ) (mn mx : ℚ)
    (height : ℕ) (hne : beams ≠ []) :
    resolveBeamInclinations beams mn mx height = beams.reverse ∧
    (∀ i, i < beams.length →
      (resolveBeamInclinations beams mn mx height)[i]?
        = beams[beams.length - 1 - i]?) ∧
    resolveBeamInclinations [] mn mx height
      = (computeInclination mn mx height).reverse := by
  have hemp : beams.isEmpty = false := by
    cases beams with
    | nil => exact absurd rfl hne
    | cons a l => rfl
  have h1 : resolveBeamInclinations beams mn mx height = beams.reverse := by
    simp [resolveBeamInclinations, hemp]
  refine ⟨h1, ?_, ?_⟩
  · intro i hi
    rw [h1]
    have hi' : i < beams.reverse.length := by simpa using hi
    rw [List.getElem?_eq_getElem hi', List.getElem_reverse]
    have hlt : beams.length - 1 - i < beams.length := by omega
    rw [List.getElem?_eq_getElem hlt]
  · simp [resolveBeamInclinations]

/-- Claim C2 witness: the explicit list `[1, 2, 3]`. -/
theorem claim_C2_witness :
    ([1, 2, 3] : List ℚ) ≠ [] ∧
    (resolveBeamInclinations [1, 2, 3] 0 0 0 = ([1, 2, 3] : List ℚ).reverse ∧
    (∀ i, i < ([1, 2, 3] : List ℚ).length →
      (resolveBeamInclinations [1, 2, 3] 0 0 0)[i]?
        = ([1, 2, 3] : List ℚ)[([1, 2, 3] : List ℚ).length - 1 - i]?) ∧
    resolveBeamInclinations [] 0 0 0 = (computeInclination 0 0 0).reverse) :=
  ⟨by decide, claim_C2_inclination_reversal [1, 2, 3] 0 0 0 (by decide)⟩

/-- Claim C3: a pixel's index is produced by the mask extraction iff its
range channel is strictly positive and, when no-label-zone filtering is
enabled, its no-label-zone channel differs from 1.0. -/
theorem claim_C3_mask_characterization (filterNLZ : Bool) (img : RangeImage)
    (r c : ℕ) :
    (r, c) ∈ whereTrue (rangeImageMask filterNLZ img)
      ↔ ∃ p, at2 img r c = some p ∧ 0 < p.range
          ∧ (filterNLZ = true → p.nlz ≠ 1) := by
  rw [mem_whereTrue, rangeImageMask, at2_map]
  constructor
  · intro h
    rcases Option.map_eq_some'.mp h with ⟨p, hp, hv⟩
    refine ⟨p, hp, ?_⟩
    cases filterNLZ <;> simpa [pixelValid] using hv
  · rintro ⟨p, hp, hr, hn⟩
    apply Option.map_eq_some'.mpr
    refine ⟨p, hp, ?_⟩
    cases filterNLZ with
    | false => simp [pixelValid, hr]
    | true => simp [pixelValid, hr, hn rfl]

/-- Claim C3 witness: with filtering enabled, a positive-range pixel flagged
`nlz = 1.0` is excluded; the instance checks the characterization on that
pixel. -/
theorem claim_C3_witness :
    (0, 0) ∈ whereTrue (rangeImageMask true [[⟨5, 7, 0, 1⟩]])
      ↔ ∃ p, at2 ([[⟨5, 7, 0, 1⟩]] : RangeImage) 0 0 = some p ∧ 0 < p.range
          ∧ (true = true → p.nlz ≠ 1) :=
  claim_C3_mask_characterization true [[⟨5, 7, 0, 1⟩]] 0 0

/-- Claim C4: the per-pixel pose correction is applied only for the top
sensor; a non-top sensor's output is independent of any supplied per-pixel
pose grid and each of its Cartesian grid cells is computed from the
frame-wide pose and the extrinsic alone, while the top sensor's cells use
the per-pixel grid entry composed with the frame pose. -/
theorem claim_C4_pixel_pose_top_only (s2c : ℚ → ℚ → ℕ → Vec3) (name : ℕ)
    (g g' : ℕ → ℕ → Mat4) (framePose extrinsic : Mat4) (incl : List ℚ)
    (filterNLZ : Bool) (img : RangeImage) (hn : name ≠ LaserNameTOP) :
    convertSensorReturn s2c name g framePose extrinsic incl filterNLZ img
      = convertSensorReturn s2c name g' framePose extrinsic incl filterNLZ img ∧
    (∀ r c p, at2 img r c = some p →
      at2 (extractPointCloudFromRangeImage s2c extrinsic incl img
          (pixelPoseArg name g) framePose) r c
        = some (applyTransform framePose (applyTransform extrinsic
            (s2c p.range ((incl[r]?).getD 0) c)))) ∧
    (∀ r c p, at2 img r c = some p →
      at2 (extractPointCloudFromRangeImage s2c extrinsic incl img
          (pixelPoseArg LaserNameTOP g) framePose) r c
        = some (applyTransform (matMul framePose (g r c))
            (applyTransform extrinsic
              (s2c p.range ((incl[r]?).getD 0) c)))) := by
  have hpp : pixelPoseArg name g = none := by simp [pixelPoseArg, hn]
  have hpp' : pixelPoseArg name g' = none := by simp [pixelPoseArg, hn]
  refine ⟨?_, ?_, ?_⟩
  · rw [convertSensorReturn, convertSensorReturn, hpp, hpp']
  · intro r c p hp
    rw [at2_extract, hp]
    simp [cartPoint, hpp]
  · intro r c p hp
    rw [at2_extract, hp]
    simp [cartPoint, pixelPoseArg]

/-- Claim C4 witness: sensor name 2 (a non-top sensor) with two different
pose grids on a 1×1 image. -/
theorem claim_C4_witness :
    (2 : ℕ) ≠ LaserNameTOP ∧
    (convertSensorReturn (fun rg inc c => (rg, inc, (c : ℚ))) 2
        (fun _ _ => (fun _ _ => 1)) (fun _ _ => 0) (fun _ _ => 0) [] false
        [[⟨5, 7, 0, 0⟩]]
      = convertSensorReturn (fun rg inc c => (rg, inc, (c : ℚ))) 2
        (fun _ _ => (fun _ _ => 2)) (fun _ _ => 0) (fun _ _ => 0) [] false
        [[⟨5, 7, 0, 0⟩]] ∧
    (∀ r c p, at2 ([[⟨5, 7, 0, 0⟩]] : RangeImage) r c = some p →
      at2 (extractPointCloudFromRangeImage (fun rg inc c => (rg, inc, (c : ℚ)))
          (fun _ _ => 0) [] [[⟨5, 7, 0, 0⟩]]
          (pixelPoseArg 2 (fun _ _ => (fun _ _ => 1))) (fun _ _ => 0)) r c
        = some (applyTransform (fun _ _ => 0) (applyTransform (fun _ _ => 0)
            ((fun rg inc c => (rg, inc, (c : ℚ))) p.range
              (([] : List ℚ)[r]?.getD 0) c)))) ∧
    (∀ r c p, at2 ([[⟨5, 7, 0, 0⟩]] : RangeImage) r c = some p →
      at2 (extractPointCloudFromRangeImage (fun rg inc c => (rg, inc, (c : ℚ)))
          (fun _ _ => 0) [] [[⟨5, 7, 0, 0⟩]]
          (pixelPoseArg LaserNameTOP (fun _ _ => (fun _ _ => 1)))
          (fun _ _ => 0)) r c
        = some (applyTransform
            (matMul (fun _ _ => 0) ((fun _ _ => (fun _ _ => 1)) r c))
            (applyTransform (fun _ _ => 0)
              ((fun rg inc c => (rg, inc, (c : ℚ))) p.range
                (([] : List ℚ)[r]?.getD 0) c))))) :=
  ⟨by decide,
   claim_C4_pixel_pose_top_only (fun rg inc c => (rg, inc, (c : ℚ))) 2
     (fun _ _ => (fun _ _ => 1)) (fun _ _ => (fun _ _ => 2)) (fun _ _ => 0)
     (fun _ _ => 0) [] false [[⟨5, 7, 0, 0⟩]] (by decide)⟩

theorem real_tanh_mem_Ioo (x : ℝ) : -1 < Real.tanh x ∧ Real.tanh x < 1 := by
  have hc : 0 < Real.cosh x := Real.cosh_pos x
  constructor
  · rw [Real.tanh_eq_sinh_div_cosh, lt_div_iff₀ hc]
    have h := Real.cosh_add_sinh x
    have he : 0 < Real.exp x := Real.exp_pos x
    nlinarith
  · rw [Real.tanh_eq_sinh_div_cosh, div_lt_one hc]
    have h := Real.cosh_sub_sinh x
    have he : 0 < Real.exp (-x) := Real.exp_pos (-x)
    linarith

/-- Claim C5: with normalization enabled, every output intensity is the
hyperbolic tangent of the raw channel-1 value and lies strictly in (−1, 1);
with normalization disabled, the raw values pass through unchanged. -/
theorem claim_C5_intensity_normalization (raw : List ℝ) (i : ℕ) (x : ℝ)
    (hx : raw[i]? = some x) :
    (normalizeIntensity true raw)[i]? = some (Real.tanh x) ∧
    -1 < Real.tanh x ∧ Real.tanh x < 1 ∧
    normalizeIntensity false raw = raw := by
  refine ⟨?_, (real_tanh_mem_Ioo x).1, (real_tanh_mem_Ioo x).2, ?_⟩
  · simp [normalizeIntensity, List.getElem?_map, hx]
  · simp [normalizeIntensity]

/-- Claim C5 witness: the singleton raw intensity list `[0]`. -/
theorem claim_C5_witness :
    ([(0 : ℝ)][0]? = some 0) ∧
    ((normalizeIntensity true [0])[0]? = some (Real.tanh 0) ∧
    -1 < Real.tanh 0 ∧ Real.tanh 0 < 1 ∧
    normalizeIntensity false [0] = [(0 : ℝ)]) :=
  ⟨rfl, claim_C5_intensity_normalization [0] 0 0 rfl⟩

theorem getElem?_zipWith {α β γ : Type} (f : α → β → γ) :
    ∀ (l1 : List α) (l2 : List β) (k : ℕ),
      (List.zipWith f l1 l2)[k]?
        = (l1[k]?).bind (fun a => (l2[k]?).map (f a)) := by
  intro l1
  induction l1 with
  | nil => intro l2 k; simp
  | cons a l1 ih =>
    intro l2 k
    cases l2 with
    | nil => simp
    | cons b l2 =>
      cases k with
      | zero => simp
      | succ n => simpa using ih l2 n

/-- Claim C6: the assembler concatenates first-return then second-return
points in that fixed order, concatenates intensities in the same order,
and appends intensity as a fourth column, producing one N×4 array whose
row count equals the intensity count. -/
theorem claim_C6_cloud_assembly (pts0 pts1 : List (List Vec3R))
    (ints0 ints1 : List (List ℝ)) (normalize : Bool)
    (hp : (pts0 ++ pts1).isEmpty = false)
    (hi : (ints0 ++ ints1).isEmpty = false)
    (hlen : (pts0 ++ pts1).flatten.length = (ints0 ++ ints1).flatten.length) :
    writePointCloudSensor pts0 pts1 ints0 ints1 normalize
      = Except.ok (List.zipWith (fun p i => (p.1, p.2.1, p.2.2, i))
          ((pts0 ++ pts1).flatten)
          (normalizeIntensity normalize ((ints0 ++ ints1).flatten))) ∧
    (List.zipWith (fun p i => (p.1, p.2.1, p.2.2, i))
          ((pts0 ++ pts1).flatten)
          (normalizeIntensity normalize ((ints0 ++ ints1).flatten))).length
      = (pts0 ++ pts1).flatten.length ∧
    (normalizeIntensity normalize ((ints0 ++ ints1).flatten)).length
      = (pts0 ++ pts1).flatten.length ∧
    ∀ (k : ℕ) (p : Vec3R) (x : ℝ), ((pts0 ++ pts1).flatten)[k]? = some p →
      (normalizeIntensity normalize ((ints0 ++ ints1).flatten))[k]? = some x →
      (List.zipWith (fun p i => (p.1, p.2.1, p.2.2, i))
          ((pts0 ++ pts1).flatten)
          (normalizeIntensity normalize ((ints0 ++ ints1).flatten)))[k]?
        = some (p.1, p.2.1, p.2.2, x) := by
  have hlen2 : (normalizeIntensity normalize ((ints0 ++ ints1).flatten)).length
      = (pts0 ++ pts1).flatten.length := by
    rw [length_normalizeIntensity]
    omega
  refine ⟨?_, ?_, hlen2, ?_⟩
  · simp only [writePointCloudSensor, concatReturns, hp, hi, Bool.false_eq_true,
      if_false, columnStack]
    rw [if_pos hlen2.symm]
  · rw [List.length_zipWith, hlen2]
    omega
  · intro k p x hkp hkx
    rw [getElem?_zipWith, hkp, hkx]
    rfl

/-- Claim C6 witness: one first-return array holding one point and one
intensity, empty second return, normalization off. -/
theorem claim_C6_witness :
    (([[((1 : ℝ), (2 : ℝ), (3 : ℝ))]] ++ []).isEmpty = false) ∧
    (([[(4 : ℝ)]] ++ []).isEmpty = false) ∧
    (([[((1 : ℝ), (2 : ℝ), (3 : ℝ))]] ++ []).flatten.length
      = ([[(4 : ℝ)]] ++ []).flatten.length) ∧
    (writePointCloudSensor [[((1 : ℝ), (2 : ℝ), (3 : ℝ))]] [] [[(4 : ℝ)]] []
        false
      = Except.ok (List.zipWith (fun p i => (p.1, p.2.1, p.2.2, i))
          (([[((1 : ℝ), (2 : ℝ), (3 : ℝ))]] ++ []).flatten)
          (normalizeIntensity false (([[(4 : ℝ)]] ++ []).flatten))) ∧
    (List.zipWith (fun p i => (p.1, p.2.1, p.2.2, i))
          (([[((1 : ℝ), (2 : ℝ), (3 : ℝ))]] ++ []).flatten)
          (normalizeIntensity false (([[(4 : ℝ)]] ++ []).flatten))).length
      = ([[((1 : ℝ), (2 : ℝ), (3 : ℝ))]] ++ []).flatten.length ∧
    (normalizeIntensity false (([[(4 : ℝ)]] ++ []).flatten)).length
      = ([[((1 : ℝ), (2 : ℝ), (3 : ℝ))]] ++ []).flatten.length ∧
    ∀ (k : ℕ) (p : Vec3R) (x : ℝ),
      (([[((1 : ℝ), (2 : ℝ), (3 : ℝ))]] ++ []).flatten)[k]? = some p →
      (normalizeIntensity false (([[(4 : ℝ)]] ++ []).flatten))[k]? = some x →
      (List.zipWith (fun p i => (p.1, p.2.1, p.2.2, i))
          (([[((1 : ℝ), (2 : ℝ), (3 : ℝ))]] ++ []).flatten)
          (normalizeIntensity false (([[(4 : ℝ)]] ++ []).flatten)))[k]?
        = some (p.1, p.2.1, p.2.2, x)) :=
  ⟨rfl, rfl, rfl,
   claim_C6_cloud_assembly [[((1 : ℝ), (2 : ℝ), (3 : ℝ))]] [] [[(4 : ℝ)]] []
     false rfl rfl rfl⟩

/-- Claim C7: within one unit the static transform is written exactly once,
on the first frame; on every later frame the recomputed transform is
compared against the first-frame snapshot and a mismatch is a hard failure
(no silent overwrite); the snapshot restarts from `None` for each unit. -/
theorem claim_C7_tf_static_once (α : Type) [DecidableEq α] (m : α)
    (rest : List α) (hall : ∀ x ∈ rest, x = m) :
    runUnitTfStatic none (m :: rest) = Except.ok (some m, 1) ∧
    (∀ s msg : α, s ≠ msg →
      writeTfStatic (some s) msg
        = (Except.error "StaticTransformMismatch"
            : Except String (Option α × Bool))) ∧
    (∀ (bad : α) (pre post : List α), (∀ x ∈ pre, x = m) → bad ≠ m →
      runUnitTfStatic none (m :: (pre ++ bad :: post))
        = Except.error "StaticTransformMismatch") ∧
    (∀ (m2 : α) (rest2 : List α), (∀ x ∈ rest2, x = m2) →
      convertUnitsTfStatic [m :: rest, m2 :: rest2] = Except.ok [1, 1]) := by
  have hrun : ∀ (a : α) (l : List α), (∀ x ∈ l, x = a) →
      runUnitTfStatic none (a :: l) = Except.ok (some a, 1) := by
    intro a l h
    simp [runUnitTfStatic, writeTfStatic, runUnitTfStatic_const a l h]
  refine ⟨hrun m rest hall, ?_, ?_, ?_⟩
  · intro s msg hne
    simp [writeTfStatic, hne]
  · intro bad pre post hpre hbad
    simp [runUnitTfStatic, writeTfStatic,
      runUnitTfStatic_mismatch m bad hbad pre hpre post]
  · intro m2 rest2 hall2
    simp [convertUnitsTfStatic, hrun m rest hall, hrun m2 rest2 hall2]

/-- Claim C7 witness: a unit of two identical messages followed by a unit
with a different message. -/
theorem claim_C7_witness :
    (∀ x ∈ ([0] : List ℕ), x = 0) ∧
    (runUnitTfStatic none [0, 0] = Except.ok (some (0 : ℕ), 1) ∧
    (∀ s msg : ℕ, s ≠ msg →
      writeTfStatic (some s) msg
        = (Except.error "StaticTransformMismatch"
            : Except String (Option ℕ × Bool))) ∧
    (∀ (bad : ℕ) (pre post : List ℕ), (∀ x ∈ pre, x = 0) → bad ≠ 0 →
      runUnitTfStatic none (0 :: (pre ++ bad :: post))
        = Except.error "StaticTransformMismatch") ∧
    (∀ (m2 : ℕ) (rest2 : List ℕ), (∀ x ∈ rest2, x = m2) →
      convertUnitsTfStatic [[0, 0], m2 :: rest2] = Except.ok [1, 1])) :=
  ⟨by decide, claim_C7_tf_static_once ℕ 0 [0] (by decide)⟩

/-- Claim C8: a selected sensor with no point entries for either return
index makes the concatenation step fail with the InvalidSensorData
condition, and the per-frame conversion aborts with an error instead of
skipping the sensor. -/
theorem claim_C8_missing_sensor_aborts (normalize : Bool)
    (sensors : List SensorEntries) (s : SensorEntries) (hs : s ∈ sensors)
    (h0 : s.pts0 = []) (h1 : s.pts1 = []) :
    writePointCloudSensor s.pts0 s.pts1 s.ints0 s.ints1 normalize
      = Except.error "InvalidSensorData" ∧
    ∃ e, writePointCloudFrame normalize sensors = Except.error e := by
  have herr : writePointCloudSensor s.pts0 s.pts1 s.ints0 s.ints1 normalize
      = Except.error "InvalidSensorData" := by
    rw [h0, h1]
    simp [writePointCloudSensor, concatReturns]
  exact ⟨herr, exceptMapM_error _ sensors s hs ⟨_, herr⟩⟩

/-- Claim C8 witness: a frame holding exactly one selected sensor with empty
entry lists. -/
theorem claim_C8_witness :
    ((⟨[], [], [], []⟩ : SensorEntries) ∈ [(⟨[], [], [], []⟩ : SensorEntries)]) ∧
    (⟨[], [], [], []⟩ : SensorEntries).pts0 = [] ∧
    (⟨[], [], [], []⟩ : SensorEntries).pts1 = [] ∧
    (writePointCloudSensor (⟨[], [], [], []⟩ : SensorEntries).pts0
        (⟨[], [], [], []⟩ : SensorEntries).pts1
        (⟨[], [], [], []⟩ : SensorEntries).ints0
        (⟨[], [], [], []⟩ : SensorEntries).ints1 true
      = Except.error "InvalidSensorData" ∧
    ∃ e, writePointCloudFrame true [(⟨[], [], [], []⟩ : SensorEntries)]
      = Except.error e) :=
  ⟨List.mem_cons_self _ _, rfl, rfl,
   claim_C8_missing_sensor_aborts true [⟨[], [], [], []⟩] ⟨[], [], [], []⟩
     (List.mem_cons_self _ _) rfl rfl⟩

/-- Claim C9 counterexample: the claim says a failing unit does not prevent
the remaining units from being attempted; here the first unit fails
(mismatching static transforms) and the whole conversion returns that error,
with no result for the second unit — even though the second unit alone
converts fine. -/
theorem claim_C9_counterexample :
    convertUnitsTfStatic [[(0 : ℕ), 1], [5]]
      = Except.error "StaticTransformMismatch" ∧
    convertUnitsTfStatic [[(5 : ℕ)]] = Except.ok [1] :=
  ⟨rfl, rfl⟩

/-- Claim C9 (amended): a failure while converting one unit propagates out
of the `convert` loop and aborts the entire run; the remaining units are not
attempted (the per-unit try/finally only closes that unit's bag before the
exception escapes). -/
theorem claim_C9_unit_failure_aborts_run (α : Type) [DecidableEq α]
    (u : List α) (units : List (List α)) (e : String)
    (hu : runUnitTfStatic none u = Except.error e) :
    convertUnitsTfStatic (u :: units) = Except.error e := by
  simp [convertUnitsTfStatic, hu]

/-- Claim C9 witness: the failing two-frame unit followed by another unit. -/
theorem claim_C9_witness :
    (runUnitTfStatic none [(0 : ℕ), 1]
      = Except.error "StaticTransformMismatch") ∧
    convertUnitsTfStatic [[(0 : ℕ), 1], [5]]
      = Except.error "StaticTransformMismatch" :=
  ⟨rfl, claim_C9_unit_failure_aborts_run ℕ [0, 1] [[5]]
    "StaticTransformMismatch" rfl⟩

/-- Claim C10: the image writer, camera-info writer and static-transform
writer each keep exactly the cameras named "front", so a frame with
distinct camera names yields at most one image message, one camera-info
message and one camera static transform. -/
theorem claim_C10_front_camera_only (β : Type)
    (calibs images : List (String × β))
    (hc : (calibs.map Prod.fst).Nodup) (him : (images.map Prod.fst).Nodup) :
    (∀ e, e ∈ writeTfStaticCameraTransforms calibs
      ↔ e ∈ calibs ∧ e.1 = "front") ∧
    (∀ e, e ∈ writeImages images ↔ e ∈ images ∧ e.1 = "front") ∧
    (∀ e, e ∈ writeCameraInfos calibs ↔ e ∈ calibs ∧ e.1 = "front") ∧
    (writeTfStaticCameraTransforms calibs).length ≤ 1 ∧
    (writeImages images).length ≤ 1 ∧
    (writeCameraInfos calibs).length ≤ 1 :=
  ⟨fun e => mem_frontOnly calibs e, fun e => mem_frontOnly images e,
   fun e => mem_frontOnly calibs e, frontOnly_length_le_one calibs hc,
   frontOnly_length_le_one images him, frontOnly_length_le_one calibs hc⟩

/-- Claim C10 witness: a frame with a front and a side camera calibration
and one front image. -/
theorem claim_C10_witness :
    ((([("front", 0), ("side_left", 1)] : List (String × ℕ)).map
        Prod.fst).Nodup) ∧
    ((([("front", 2)] : List (String × ℕ)).map Prod.fst).Nodup) ∧
    ((∀ e, e ∈ writeTfStaticCameraTransforms
        ([("front", 0), ("side_left", 1)] : List (String × ℕ))
      ↔ e ∈ ([("front", 0), ("side_left", 1)] : List (String × ℕ))
          ∧ e.1 = "front") ∧
    (∀ e, e ∈ writeImages ([("front", 2)] : List (String × ℕ))
      ↔ e ∈ ([("front", 2)] : List (String × ℕ)) ∧ e.1 = "front") ∧
    (∀ e, e ∈ writeCameraInfos
        ([("front", 0), ("side_left", 1)] : List (String × ℕ))
      ↔ e ∈ ([("front", 0), ("side_left", 1)] : List (String × ℕ))
          ∧ e.1 = "front") ∧
    (writeTfStaticCameraTransforms
        ([("front", 0), ("side_left", 1)] : List (String × ℕ))).length ≤ 1 ∧
    (writeImages ([("front", 2)] : List (String × ℕ))).length ≤ 1 ∧
    (writeCameraInfos
        ([("front", 0), ("side_left", 1)] : List (String × ℕ))).length ≤ 1) :=
  ⟨by decide, by decide,
   claim_C10_front_camera_only ℕ [("front", 0), ("side_left", 1)]
     [("front", 2)] (by decide) (by decide)⟩

end Waymo2Bag
